import Mathlib

/-!
Shallow embedding of the window-targeted input delivery engine of the
molly-macro repository (molly-macro.py and paste_to_vdi.py), together with
theorems settling the specification claims about it.

External effects (subprocess invocations of the automation utility, sleeps,
stdout) are modeled explicitly: the success or returncode of each external
call is supplied by an oracle argument, and each function returns the
observable trace it produces (dispatch requests, printed progress events,
boolean results, exit codes).
-/

/-- A dispatch request forwarded to the automation utility by the step
sequencer: the pair of an action name and its value, exactly the strings
handed to send_command_to_window. -/
abbrev Dispatch := String × String

/-- One configured open step, as read from the JSON configuration:
a dictionary with an action and an optional value (defaulted to ""). -/
structure Step where
  action : String
  value : String
deriving Repr, DecidableEq

/-- The character-to-key dictionary of convert_to_xdotool_key, shared
verbatim by molly-macro.py (lines 136-145) and paste_to_vdi.py
(lines 199-208), keyed by character code. The entries are, in source
order: space ! " # $ % & apostrophe ( ) * + , - . / backslash : ; < = > ?
at-sign [ ] ^ _ backquote, left brace, vertical bar, right brace, tilde,
and newline. -/
def xdotoolKeyTable : List (Nat × String) := [
  (32, "space"), (33, "exclam"), (34, "quotedbl"), (35, "numbersign"), (36, "dollar"),
  (37, "percent"), (38, "ampersand"), (39, "apostrophe"), (40, "parenleft"), (41, "parenright"),
  (42, "asterisk"), (43, "plus"), (44, "comma"), (45, "minus"), (46, "period"),
  (47, "slash"), (92, "backslash"), (58, "colon"), (59, "semicolon"), (60, "less"),
  (61, "equal"), (62, "greater"), (63, "question"), (64, "at"), (91, "bracketleft"),
  (93, "bracketright"), (94, "asciicircum"), (95, "underscore"), (96, "grave"),
  (123, "braceleft"), (124, "bar"), (125, "braceright"), (126, "asciitilde"),
  (10, "Return")]

/-- convert_to_xdotool_key: mapping.get(char, char) — the table entry when
the character is reserved, the character itself otherwise. -/
def convert_to_xdotool_key (c : Char) : String :=
  match xdotoolKeyTable.lookup c.toNat with
  | some k => k
  | none => String.singleton c

/-- Rounding a percentage to two decimal places, as the format specifier
.2f displays it (ties taken upward at the hundredth). -/
def round2 (q : ℚ) : ℚ := (⌊q * 100 + 1/2⌋ : ℚ) / 100

/-- The progress value printed after chars_sent characters out of
total_length: (chars_sent / total_length) * 100, displayed rounded to two
decimal places. -/
def progressValue (sent total : Nat) : ℚ := round2 ((sent * 100 : ℚ) / total)

/-- The observable outcome of send_text_to_window: its boolean return
value, the PROGRESS events printed (number of characters sent so far,
paired with the displayed percentage), and the xdotool key names
dispatched, one per send_command_to_window call with action "key". -/
structure SendResult where
  ok : Bool
  events : List (Nat × ℚ)
  dispatched : List String
deriving Repr, DecidableEq

/-- The character loop of send_text_to_window in molly-macro.py
(lines 362-378). dispatchOk gives the success of each
send_command_to_window call, indexed by the number of characters already
sent; total is len(text). Each character is converted with
convert_to_xdotool_key (the source's special case for the newline
character coincides with the table entry for code 10) and dispatched as a
"key" action; a failed dispatch returns False at once; after a successful
dispatch chars_sent is incremented and a progress event is printed when
chars_sent is a multiple of 100 or equals total. -/
def sendLoop (dispatchOk : Nat → Bool) (total : Nat) : List Char → Nat → SendResult
  | [], _ => ⟨true, [], []⟩
  | c :: cs, sent =>
    let k := convert_to_xdotool_key c
    if dispatchOk sent then
      let r := sendLoop dispatchOk total cs (sent + 1)
      let ev := if (sent + 1) % 100 == 0 || (sent + 1) == total
        then (sent + 1, progressValue (sent + 1) total) :: r.events
        else r.events
      ⟨r.ok, ev, k :: r.dispatched⟩
    else
      ⟨false, [], [k]⟩

/-- send_text_to_window of molly-macro.py (lines 320-384): empty text is
reported as an error and rejected before any dispatch; otherwise the text
is sent character by character. Window activation always reports success
(see activate_window_result below), so the activation guards never
abort. -/
def send_text_to_window (dispatchOk : Nat → Bool) (text : List Char) : SendResult :=
  if text.isEmpty then ⟨false, [], []⟩
  else sendLoop dispatchOk text.length text 0

/-- The outcome of execute_steps: its boolean return value and the
dispatch requests forwarded to send_command_to_window, in order. -/
structure StepsResult where
  ok : Bool
  dispatched : List Dispatch
deriving Repr, DecidableEq

/-- execute_steps of molly-macro.py (lines 103-124): steps run in list
order; a launch_window step is skipped with continue; every other step is
forwarded to send_command_to_window with its action and value, and the
first failure stops execution and returns False. -/
def execute_steps (dispatchOk : Dispatch → Bool) : List Step → StepsResult
  | [] => ⟨true, []⟩
  | s :: rest =>
    if s.action == "launch_window" then execute_steps dispatchOk rest
    else if dispatchOk (s.action, s.value) then
      let r := execute_steps dispatchOk rest
      ⟨r.ok, (s.action, s.value) :: r.dispatched⟩
    else ⟨false, [(s.action, s.value)]⟩

/-- The characters removed by Python str.strip(), i.e. those for which
str.isspace() is true: tab through carriage return (codes 9-13), the
separator controls (28-31), space (32), next line (133), no-break space
(160), ogham space mark (5760), the typographic spaces (8192-8202), line
and paragraph separators (8232, 8233), narrow no-break space (8239),
medium mathematical space (8287) and ideographic space (12288). -/
def isPySpace (c : Char) : Bool :=
  (9 ≤ c.toNat && c.toNat ≤ 13) || (28 ≤ c.toNat && c.toNat ≤ 32)
  || c.toNat == 133 || c.toNat == 160 || c.toNat == 5760
  || (8192 ≤ c.toNat && c.toNat ≤ 8202) || c.toNat == 8232 || c.toNat == 8233
  || c.toNat == 8239 || c.toNat == 8287 || c.toNat == 12288

/-- Python line.strip(): drop leading and trailing whitespace. -/
def pyStrip (line : List Char) : List Char :=
  ((line.dropWhile isPySpace).reverse.dropWhile isPySpace).reverse

/-- Python line.split of a line on the tab character: the list of fields,
always non-empty, with empty fields preserved. -/
def splitOnTab : List Char → List (List Char)
  | [] => [[]]
  | c :: cs =>
    let r := splitOnTab cs
    if c == '\t' then [] :: r
    else
      match r with
      | [] => [[c]]
      | f :: rest => (c :: f) :: rest

/-- A dispatch issued by the spreadsheet-mode sender of paste_to_vdi.py:
a "type" dispatch carrying a field, or a "key" dispatch carrying a key
name. -/
inductive SheetCmd where
  | type (field : List Char)
  | key (k : String)
deriving Repr, DecidableEq

/-- The field loop of send_line_spreadsheet in paste_to_vdi.py
(lines 369-374): type each field, with a Tab key dispatch after every
field but the last. -/
def spreadsheetFieldDispatches : List (List Char) → List SheetCmd
  | [] => []
  | [p] => [.type p]
  | p :: rest => .type p :: .key "Tab" :: spreadsheetFieldDispatches rest

/-- send_line_spreadsheet of paste_to_vdi.py (lines 352-378): split the
line on tabs, type each field with a Tab key between fields, then a
Return key at the end of the line. -/
def send_line_spreadsheet (line : List Char) : List SheetCmd :=
  spreadsheetFieldDispatches (splitOnTab line) ++ [.key "Return"]

/-- The guard of the spreadsheet-mode line loop in paste_to_vdi.py main
(lines 544-555): a line is processed only when line.strip() is non-empty
and does not start with the comment character (code 35). -/
def lineIsSkipped (line : List Char) : Bool :=
  match pyStrip line with
  | [] => true
  | c :: _ => c == Char.ofNat 35

/-- One iteration of the spreadsheet-mode line loop in paste_to_vdi.py
main: blank lines and comment lines dispatch nothing; every other line
goes through send_line_spreadsheet. -/
def processSpreadsheetLine (line : List Char) : List SheetCmd :=
  if lineIsSkipped line then [] else send_line_spreadsheet line

/-- find_window_id of paste_to_vdi.py (lines 301-321), after the search
output has been parsed into the list of window ids: the last id is
returned when the list is non-empty. -/
def find_window_id (windowIds : List String) : Option String :=
  if windowIds.isEmpty then none else windowIds.getLast?

/-- One search attempt of the window scan inside launch_application of
molly-macro.py (lines 286-297): walk the listed window ids in order and
return the first one whose title matches (the source tests
window_match in window_title; titleMatches is that per-id test). -/
def launchFindWindow (titleMatches : String → Bool) : List String → Option String
  | [] => none
  | i :: rest => if titleMatches i then some i else launchFindWindow titleMatches rest

/-- subprocess.run as used by the engine: with check=True a non-zero
returncode raises CalledProcessError, with check=False the completed
result is returned regardless of the returncode. -/
def subprocessRun (check : Bool) (returncode : Int) : Except Unit Int :=
  if check && returncode != 0 then .error () else .ok returncode

/-- activate_window of molly-macro.py (lines 219-250). Every subprocess
call in its body uses check=False; when the first windowactivate reports
a non-zero returncode the window is mapped and activation is retried; the
windowfocus and windowraise calls are best-effort. env gives the
returncode of each call slot: 0 first activation, 1 windowmap, 2 retried
activation, 3 windowfocus, 4 windowraise. The surrounding try/except
yields False only when a CalledProcessError escapes a call. -/
def activate_window (env : Nat → Int) : Except Unit Bool := do
  let r ← subprocessRun false (env 0)
  if r != 0 then
    let _ ← subprocessRun false (env 1)
    let _ ← subprocessRun false (env 2)
    pure ()
  let _ ← subprocessRun false (env 3)
  let _ ← subprocessRun false (env 4)
  pure true

/-- The Python-level return value of activate_window: True when the body
runs to completion, False when a CalledProcessError escapes one of the
subprocess calls. -/
def activate_window_result (env : Nat → Int) : Bool :=
  match activate_window env with
  | .ok b => b
  | .error _ => false

/-- The outcome of one send_command_to_window dispatch in molly-macro.py:
whether the early abort branch for a failed activation was taken, and the
returned success. -/
structure DispatchOutcome where
  abortedOnActivation : Bool
  ok : Bool
deriving Repr, DecidableEq

/-- The activation guard of send_command_to_window in molly-macro.py
(lines 193-206): before the underlying type or key command,
activate_window is called; if it returned False the dispatch aborts early
with False; otherwise the underlying command runs and its success cmdOk
is returned. -/
def send_command_to_window (env : Nat → Int) (cmdOk : Bool) : DispatchOutcome :=
  if activate_window_result env = false then ⟨true, false⟩
  else ⟨false, cmdOk⟩

/-- The application-configuration fields read by the payload phase of
molly-macro.py main. -/
structure AppConfig where
  open_steps : List Step
  no_payload : Bool
  mode : Option String
deriving Repr, DecidableEq

/-- The mode branch of molly-macro.py main (lines 496-524), restricted to
its observable sends: the dispatched key names and printed progress
events. Spreadsheet mode with clipboard input skips the send when the
clipboard is empty; spreadsheet mode with file input, text mode and code
mode all call send_text_to_window on the whole content. The return value
of send_text_to_window is ignored by main. -/
def runMode (mode : String) (useClipboard : Bool) (dispatchOk : Nat → Bool)
    (content : List Char) : List String × List (Nat × ℚ) :=
  if mode == "spreadsheet" then
    if useClipboard then
      if content.isEmpty then ([], [])
      else
        let r := send_text_to_window dispatchOk content
        (r.dispatched, r.events)
    else
      let r := send_text_to_window dispatchOk content
      (r.dispatched, r.events)
  else
    let r := send_text_to_window dispatchOk content
    (r.dispatched, r.events)

/-- The observable outcome of molly-macro.py main from open-step execution
to process exit: the step result, the step dispatches, the payload key
dispatches, the PROGRESS percentages printed after the steps, and the
exit code. -/
structure RunOutcome where
  stepsOk : Bool
  stepDispatches : List Dispatch
  payloadDispatches : List String
  progressLines : List ℚ
  exitCode : Nat
deriving Repr, DecidableEq

/-- molly-macro.py main from the open-steps execution (line 476) to the
end (line 527): failed steps exit 1; when no_payload is set, PROGRESS:100.00
is printed and the process exits 0 without any payload send; a missing
mode exits 6; spreadsheet, text and code modes send the content through
runMode and then print PROGRESS:100.00; image mode only warns and prints
PROGRESS:100.00; an unknown mode exits 6. A normal fall-through of main
ends the process with exit code 0. -/
def mainAfterWindowResolved (stepOk : Dispatch → Bool) (dispatchOk : Nat → Bool)
    (cfg : AppConfig) (useClipboard : Bool) (content : List Char) : RunOutcome :=
  let sr := execute_steps stepOk cfg.open_steps
  if !sr.ok then ⟨false, sr.dispatched, [], [], 1⟩
  else if cfg.no_payload then ⟨true, sr.dispatched, [], [100], 0⟩
  else
    match cfg.mode with
    | none => ⟨true, sr.dispatched, [], [], 6⟩
    | some m =>
      if m == "spreadsheet" || m == "text" || m == "code" then
        let (d, ev) := runMode m useClipboard dispatchOk content
        ⟨true, sr.dispatched, d, ev.map Prod.snd ++ [100], 0⟩
      else if m == "image" then ⟨true, sr.dispatched, [], [100], 0⟩
      else ⟨true, sr.dispatched, [], [], 6⟩

/-! ## Helper lemmas -/

lemma lookup_eq_none_of_not_mem_keys {α β : Type} [BEq α] [LawfulBEq α]
    (l : List (α × β)) (k : α) (h : k ∉ l.map Prod.fst) : l.lookup k = none := by
  induction l with
  | nil => rfl
  | cons p l ih =>
    simp only [List.map_cons, List.mem_cons, not_or] at h
    simp only [List.lookup, beq_eq_false_iff_ne.mpr h.1, ih h.2]

lemma activate_window_eq (env : Nat → Int) : activate_window env = .ok true := by
  unfold activate_window subprocessRun
  by_cases h : env 0 = 0
  · show Except.bind _ _ = _
    simp only [Except.bind, Bool.false_and, Bool.and_self, if_neg Bool.false_ne_true, h]
    rfl
  · show Except.bind _ _ = _
    simp only [Except.bind, Bool.false_and, Bool.and_self, if_neg Bool.false_ne_true,
      if_pos (bne_iff_ne.mpr h)]
    rfl

lemma send_text_nil (dispatchOk : Nat → Bool) :
    send_text_to_window dispatchOk [] = ⟨false, [], []⟩ := rfl

lemma sendLoop_fail (dispatchOk : Nat → Bool) (total : Nat) :
    ∀ (cs : List Char) (sent i : Nat), i < cs.length →
      (∀ j, j < i → dispatchOk (sent + j) = true) → dispatchOk (sent + i) = false →
      (sendLoop dispatchOk total cs sent).ok = false ∧
      (sendLoop dispatchOk total cs sent).dispatched
        = (cs.take (i + 1)).map convert_to_xdotool_key
  | [], _, i, hi, _, _ => by simp at hi
  | c :: cs, sent, 0, _, _, hfail => by
    simp only [Nat.add_zero] at hfail
    simp [sendLoop, hfail]
  | c :: cs, sent, i + 1, hi, hok, hfail => by
    have h0 : dispatchOk sent = true := by simpa using hok 0 (Nat.succ_pos i)
    have ih := sendLoop_fail dispatchOk total cs (sent + 1) i
      (by simpa using Nat.lt_of_succ_lt_succ hi)
      (fun j hj => by
        have := hok (j + 1) (Nat.succ_lt_succ hj)
        simpa [Nat.add_assoc, Nat.add_comm 1 j] using this)
      (by simpa [Nat.add_assoc, Nat.add_comm 1 i] using hfail)
    simp [sendLoop, h0, ih.1, ih.2]

/-! ## Claim theorems -/

/-- C6: for the empty text payload, send_text_to_window reports the caller
error and returns False before any dispatch attempt: no key is dispatched
and no progress event is printed. -/
theorem C6_empty_payload_rejected (dispatchOk : Nat → Bool) :
    send_text_to_window dispatchOk [] = ⟨false, [], []⟩ := rfl

/-- C5: when the dispatch of the character at position i fails and all
earlier dispatches succeed, send_text_to_window returns False at once:
the dispatched keys are exactly the keys of the first i+1 characters, so
the failed character is attempted exactly once and no later character is
dispatched. -/
theorem C5_abort_on_first_failure (dispatchOk : Nat → Bool) (text : List Char)
    (i : Nat) (hi : i < text.length)
    (hok : ∀ j, j < i → dispatchOk j = true) (hfail : dispatchOk i = false) :
    (send_text_to_window dispatchOk text).ok = false ∧
    (send_text_to_window dispatchOk text).dispatched
      = (text.take (i + 1)).map convert_to_xdotool_key := by
  have hne : text.isEmpty = false := by
    cases text with
    | nil => simp at hi
    | cons c cs => rfl
  have := sendLoop_fail dispatchOk text.length text 0 i hi
    (fun j hj => by simpa using hok j hj) (by simpa using hfail)
  simpa [send_text_to_window, hne] using this

/-- Witness for C5: with the dispatch of the second character failing, the
three-character payload "abc" yields False with exactly the keys a and b
dispatched. -/
theorem C5_abort_on_first_failure_witness :
    (send_text_to_window (fun n => n == 0) ['a', 'b', 'c']).ok = false ∧
    (send_text_to_window (fun n => n == 0) ['a', 'b', 'c']).dispatched
      = (['a', 'b', 'c'].take 2).map convert_to_xdotool_key :=
  C5_abort_on_first_failure (fun n => n == 0) ['a', 'b', 'c'] 1 (by decide)
    (fun j hj => by simp [Nat.lt_one_iff.mp hj]) (by decide)

/-- C9: activate_window returns True for every environment of subprocess
returncodes (every call uses check=False, so the exception branch that
would return False is unreachable), and consequently the early abort
branch of send_command_to_window for a failed activation is never taken:
its outcome is decided by the underlying command alone. -/
theorem C9_activation_never_fails :
    (∀ env : Nat → Int, activate_window_result env = true)
    ∧ (∀ (env : Nat → Int) (cmdOk : Bool),
        (send_command_to_window env cmdOk).abortedOnActivation = false
        ∧ (send_command_to_window env cmdOk).ok = cmdOk) := by
  have h : ∀ env : Nat → Int, activate_window_result env = true := fun env => by
    simp [activate_window_result, activate_window_eq env]
  exact ⟨h, fun env cmdOk => by simp [send_command_to_window, h env]⟩

/-- C10: in molly-macro.py, spreadsheet mode and text mode follow the same
send path (send_text_to_window on the whole content), so for every payload,
input source and dispatch oracle they produce identical key-dispatch
sequences and identical progress events. -/
theorem C10_spreadsheet_equals_text (useClipboard : Bool)
    (dispatchOk : Nat → Bool) (content : List Char) :
    runMode "spreadsheet" useClipboard dispatchOk content
      = runMode "text" useClipboard dispatchOk content := by
  unfold runMode
  cases useClipboard with
  | false => rfl
  | true =>
    cases content with
    | nil => rfl
    | cons c cs => rfl

lemma execute_steps_skip_launch (dispatchOk : Dispatch → Bool) (v : String)
    (rest : List Step) :
    execute_steps dispatchOk (⟨"launch_window", v⟩ :: rest)
      = execute_steps dispatchOk rest := by
  simp [execute_steps]

lemma execute_steps_first_failure (dispatchOk : Dispatch → Bool) :
    ∀ (pre : List Step) (s : Step) (post : List Step),
      (∀ p ∈ pre, p.action ≠ "launch_window" → dispatchOk (p.action, p.value) = true) →
      s.action ≠ "launch_window" → dispatchOk (s.action, s.value) = false →
      execute_steps dispatchOk (pre ++ s :: post)
        = ⟨false, (pre.filter (fun p => p.action != "launch_window")).map
            (fun p => (p.action, p.value)) ++ [(s.action, s.value)]⟩
  | [], s, post, _, hs, hf => by
    simp [execute_steps, beq_eq_false_iff_ne.mpr hs, hf]
  | p :: pre, s, post, hpre, hs, hf => by
    have ih := execute_steps_first_failure dispatchOk pre s post
      (fun q hq hql => hpre q (List.mem_cons_of_mem p hq) hql) hs hf
    by_cases hl : p.action = "launch_window"
    · have hskip : execute_steps dispatchOk ((p :: pre) ++ s :: post)
          = execute_steps dispatchOk (pre ++ s :: post) := by
        simp [execute_steps, hl]
      rw [hskip, ih]
      simp [List.filter_cons, hl]
    · have hd : dispatchOk (p.action, p.value) = true :=
        hpre p (List.mem_cons_self p pre) hl
      simp [execute_steps, beq_eq_false_iff_ne.mpr hl, hd, ih,
        List.filter_cons, bne_iff_ne.mpr hl]

lemma splitOnTab_no_tab : ∀ (a : List Char), '\t' ∉ a → splitOnTab a = [a]
  | [], _ => rfl
  | c :: cs, h => by
    simp only [List.mem_cons, not_or] at h
    have hc : (c == '\t') = false := beq_eq_false_iff_ne.mpr (Ne.symm h.1)
    simp [splitOnTab, hc, splitOnTab_no_tab cs h.2]

lemma splitOnTab_append : ∀ (a rest : List Char), '\t' ∉ a →
    splitOnTab (a ++ '\t' :: rest) = a :: splitOnTab rest
  | [], rest, _ => by simp [splitOnTab]
  | c :: a, rest, h => by
    simp only [List.mem_cons, not_or] at h
    have hc : (c == '\t') = false := beq_eq_false_iff_ne.mpr (Ne.symm h.1)
    simp [splitOnTab, hc, splitOnTab_append a rest h.2]

/-- C4: execute_steps runs the open steps strictly in list order:
launch_window steps dispatch nothing, and at the first failing dispatch it
returns False with exactly the dispatches of the earlier non-launch steps
followed by the failed one — no later step is dispatched. In particular
the steps key "a", type "hello", raise_window "" with a failing second
step never reach the third. -/
theorem C4_step_sequencer_halts :
    (∀ (dispatchOk : Dispatch → Bool) (v : String) (rest : List Step),
      execute_steps dispatchOk (⟨"launch_window", v⟩ :: rest)
        = execute_steps dispatchOk rest)
    ∧ (∀ (dispatchOk : Dispatch → Bool) (pre : List Step) (s : Step) (post : List Step),
      (∀ p ∈ pre, p.action ≠ "launch_window" → dispatchOk (p.action, p.value) = true) →
      s.action ≠ "launch_window" → dispatchOk (s.action, s.value) = false →
      execute_steps dispatchOk (pre ++ s :: post)
        = ⟨false, (pre.filter (fun p => p.action != "launch_window")).map
            (fun p => (p.action, p.value)) ++ [(s.action, s.value)]⟩)
    ∧ execute_steps (fun d => !(d.1 == "type"))
        [⟨"key", "a"⟩, ⟨"type", "hello"⟩, ⟨"raise_window", ""⟩]
        = ⟨false, [("key", "a"), ("type", "hello")]⟩ :=
  ⟨execute_steps_skip_launch, execute_steps_first_failure, by decide⟩

/-- Witness for C4: the failing-second-step scenario, obtained from the
general first-failure statement with pre = [key "a"], s = type "hello" and
post = [raise_window ""]. -/
theorem C4_step_sequencer_halts_witness :
    execute_steps (fun d => !(d.1 == "type"))
        ([⟨"key", "a"⟩] ++ ⟨"type", "hello"⟩ :: [⟨"raise_window", ""⟩])
      = ⟨false, [("key", "a"), ("type", "hello")]⟩ := by
  have h := C4_step_sequencer_halts.2.1 (fun d => !(d.1 == "type"))
    [⟨"key", "a"⟩] ⟨"type", "hello"⟩ [⟨"raise_window", ""⟩]
    (by decide) (by decide) (by decide)
  simpa using h

/-- C8: the key mapper is a total deterministic function: every reserved
character maps to its fixed table name, the newline character (code 10)
maps to Return, and every character outside the reserved table maps to
itself. -/
theorem C8_key_mapper_total :
    (∀ p ∈ xdotoolKeyTable, convert_to_xdotool_key (Char.ofNat p.1) = p.2)
    ∧ convert_to_xdotool_key (Char.ofNat 10) = "Return"
    ∧ (∀ c : Char, c.toNat ∉ xdotoolKeyTable.map Prod.fst →
        convert_to_xdotool_key c = String.singleton c) := by
  refine ⟨by decide, by decide, fun c hc => ?_⟩
  unfold convert_to_xdotool_key
  rw [lookup_eq_none_of_not_mem_keys _ _ hc]

/-- Witness for C8: the space character is reserved and maps to "space";
the letter a is outside the table and maps to itself. -/
theorem C8_key_mapper_total_witness :
    convert_to_xdotool_key (Char.ofNat 32) = "space"
    ∧ convert_to_xdotool_key 'a' = String.singleton 'a' :=
  ⟨C8_key_mapper_total.1 (32, "space") (by decide),
   C8_key_mapper_total.2.2 'a' (by decide)⟩

/-- C2: a spreadsheet-mode line made of three tab-separated fields that
survives the blank/comment filter produces exactly one type dispatch per
field with a Tab key between consecutive fields and one final Return key;
a blank line or a line whose stripped form starts with the comment
character produces no dispatch at all. -/
theorem C2_spreadsheet_line_dispatches :
    (∀ a b c : List Char, '\t' ∉ a → '\t' ∉ b → '\t' ∉ c →
      lineIsSkipped (a ++ '\t' :: (b ++ '\t' :: c)) = false →
      processSpreadsheetLine (a ++ '\t' :: (b ++ '\t' :: c))
        = [.type a, .key "Tab", .type b, .key "Tab", .type c, .key "Return"])
    ∧ (∀ line : List Char, lineIsSkipped line = true →
      processSpreadsheetLine line = []) := by
  constructor
  · intro a b c ha hb hc hskip
    unfold processSpreadsheetLine
    rw [hskip]
    unfold send_line_spreadsheet
    rw [splitOnTab_append a _ ha, splitOnTab_append b _ hb, splitOnTab_no_tab c hc]
    rfl
  · intro line h
    simp [processSpreadsheetLine, h]

/-- Witness for C2: the line a TAB b TAB c yields the six dispatches, and
the comment line no-break space (code 160) followed by the code-35
character, which Python strips down to a comment, yields none. -/
theorem C2_spreadsheet_line_dispatches_witness :
    processSpreadsheetLine (['a'] ++ '\t' :: (['b'] ++ '\t' :: ['c']))
      = [.type ['a'], .key "Tab", .type ['b'], .key "Tab", .type ['c'], .key "Return"]
    ∧ processSpreadsheetLine [Char.ofNat 160, Char.ofNat 35, 'x'] = [] :=
  ⟨C2_spreadsheet_line_dispatches.1 ['a'] ['b'] ['c'] (by decide) (by decide)
    (by decide) (by decide),
   C2_spreadsheet_line_dispatches.2 [Char.ofNat 160, Char.ofNat 35, 'x'] (by decide)⟩

/-- C3 counterexample: the window scan of launch_application in
molly-macro.py returns the FIRST listed window whose title matches, not
the last: with two matching windows listed as 10 then 20 it returns 10
while the last listed match is 20. -/
theorem C3_locator_counterexample :
    launchFindWindow (fun _ => true) ["10", "20"] = some "10"
    ∧ ["10", "20"].getLast? = some "20"
    ∧ launchFindWindow (fun _ => true) ["10", "20"] ≠ ["10", "20"].getLast? := by
  exact ⟨rfl, rfl, by decide⟩

/-- C3 amended: the two locators disagree. find_window_id of
paste_to_vdi.py returns the last listed window id, while the window scan
of launch_application in molly-macro.py returns the first listed window
whose title matches (the id at the first matching position). -/
theorem C3_amended_locator_policies :
    (∀ ids : List String, ids ≠ [] → find_window_id ids = ids.getLast?)
    ∧ (∀ (titleMatches : String → Bool) (ids : List String) (i : Nat) (hi : i < ids.length),
      (∀ x ∈ ids.take i, titleMatches x = false) →
      titleMatches (ids.get ⟨i, hi⟩) = true →
      launchFindWindow titleMatches ids = some (ids.get ⟨i, hi⟩)) := by
  constructor
  · intro ids h
    cases ids with
    | nil => exact absurd rfl h
    | cons a t => rfl
  · intro tm ids
    induction ids with
    | nil => intro i hi _ _; simp at hi
    | cons a t ih =>
      intro i hi hpre hmatch
      cases i with
      | zero =>
        simp only [List.get] at hmatch
        simp [launchFindWindow, hmatch]
      | succ n =>
        have ha : tm a = false := hpre a (by simp [List.take_succ_cons])
        have ih2 := ih n (Nat.lt_of_succ_lt_succ hi)
          (fun x hx => hpre x (by simp [List.take_succ_cons, hx]))
          (by simpa [List.get] using hmatch)
        simpa [launchFindWindow, ha, List.get] using ih2

/-- Witness for C3 amended: on the two-element id list 10, 20 the
paste_to_vdi locator yields the last id 20; the molly-macro scan with a
title test matching only window 20 yields that window. -/
theorem C3_amended_locator_policies_witness :
    find_window_id ["10", "20"] = ["10", "20"].getLast?
    ∧ launchFindWindow (fun s => s == "20") ["10", "20"]
      = some (["10", "20"].get ⟨1, by decide⟩) :=
  ⟨C3_amended_locator_policies.1 ["10", "20"] (by decide),
   C3_amended_locator_policies.2 (fun s => s == "20") ["10", "20"] 1 (by decide)
     (by decide) (by decide)⟩

/-- C7: when the configuration sets no_payload and the open steps all
succeed, the orchestrator issues zero payload dispatches, prints exactly
one progress line with value 100 (the PROGRESS:100.00 line), and exits
with status code 0. -/
theorem C7_no_payload_skips_transfer (stepOk : Dispatch → Bool)
    (dispatchOk : Nat → Bool) (cfg : AppConfig) (useClipboard : Bool)
    (content : List Char) (hnp : cfg.no_payload = true)
    (hsteps : (execute_steps stepOk cfg.open_steps).ok = true) :
    mainAfterWindowResolved stepOk dispatchOk cfg useClipboard content
      = ⟨true, (execute_steps stepOk cfg.open_steps).dispatched, [], [100], 0⟩ := by
  unfold mainAfterWindowResolved
  simp [hsteps, hnp]

/-- Witness for C7: a no_payload configuration with one key step, all
dispatches succeeding: no payload dispatch, one 100-percent progress line,
exit code 0. -/
theorem C7_no_payload_skips_transfer_witness :
    mainAfterWindowResolved (fun _ => true) (fun _ => true)
        ⟨[⟨"key", "a"⟩], true, some "text"⟩ false ['h', 'i']
      = ⟨true, [("key", "a")], [], [100], 0⟩ :=
  (C7_no_payload_skips_transfer (fun _ => true) (fun _ => true)
    ⟨[⟨"key", "a"⟩], true, some "text"⟩ false ['h', 'i'] rfl (by decide)).trans
    (by rfl)

lemma sendLoop_events_all_ok (total : Nat) :
    ∀ (cs : List Char) (sent : Nat),
      (sendLoop (fun _ => true) total cs sent).events
        = (((List.range cs.length).map (fun j => sent + j + 1)).filter
            (fun k => k % 100 == 0 || k == total)).map
            (fun k => (k, progressValue k total))
  | [], _ => by simp [sendLoop]
  | c :: cs, sent => by
    have ih := sendLoop_events_all_ok total cs (sent + 1)
    have hfun : ((fun j => sent + j + 1) ∘ Nat.succ) = (fun j => (sent + 1) + j + 1) := by
      funext j
      simp only [Function.comp_apply, Nat.succ_eq_add_one]
      omega
    simp only [sendLoop, if_true]
    simp only [List.length_cons, List.range_succ_eq_map, List.map_cons, List.map_map, hfun,
      Nat.add_zero, List.filter_cons]
    rcases Bool.eq_false_or_eq_true ((sent + 1) % 100 == 0 || (sent + 1) == total) with h | h
    · simp [h, ih]
    · simp [h, ih]

lemma progressValue_self (n : Nat) (h : n ≠ 0) : progressValue n n = 100 := by
  obtain ⟨m, rfl⟩ := Nat.exists_eq_succ_of_ne_zero h
  have h2 : (((m + 1 : ℕ) : ℚ) * 100) / ((m + 1 : ℕ) : ℚ) = 100 := by
    rw [mul_comm, mul_div_assoc, div_self (by positivity), mul_one]
  unfold progressValue
  rw [h2]
  norm_num [round2]

/-- C1: for every non-empty payload whose per-character dispatches all
succeed, the progress events of send_text_to_window are exactly one event
after the k-th character for each k that is a multiple of 100 or equals
the total length, each carrying the displayed value of
chars_sent / total_length * 100 rounded to two decimals, and the final
event value is exactly 100. -/
theorem C1_progress_events (text : List Char) (h : text ≠ []) :
    (send_text_to_window (fun _ => true) text).events
      = (((List.range text.length).map (fun j => j + 1)).filter
          (fun k => k % 100 == 0 || k == text.length)).map
          (fun k => (k, progressValue k text.length))
    ∧ (send_text_to_window (fun _ => true) text).events.getLast?
      = some (text.length, 100) := by
  have hne : text.isEmpty = false := by
    cases text with
    | nil => exact absurd rfl h
    | cons c cs => rfl
  have hev := sendLoop_events_all_ok text.length text 0
  have hzero : (fun j => 0 + j + 1) = (fun j : Nat => j + 1) := by
    funext j
    omega
  rw [hzero] at hev
  have hmain : (send_text_to_window (fun _ => true) text).events
      = (((List.range text.length).map (fun j => j + 1)).filter
          (fun k => k % 100 == 0 || k == text.length)).map
          (fun k => (k, progressValue k text.length)) := by
    simpa [send_text_to_window, hne] using hev
  refine ⟨hmain, ?_⟩
  rw [hmain]
  obtain ⟨m, hm⟩ : ∃ m, text.length = m + 1 := by
    cases text with
    | nil => exact absurd rfl h
    | cons c cs => exact ⟨cs.length, rfl⟩
  rw [hm, List.range_succ, List.map_append, List.filter_append, List.map_append]
  have hp : List.filter (fun k => k % 100 == 0 || k == m + 1) (List.map (fun j => j + 1) [m])
      = [m + 1] := by simp
  rw [hp]
  simp only [List.map_cons, List.map_nil]
  rw [List.getLast?_concat]
  rw [progressValue_self (m + 1) (Nat.succ_ne_zero m)]

/-- Witness for C1: the two-character payload "hi" with all dispatches
succeeding emits exactly one progress event, after the final character,
with displayed value exactly 100. -/
theorem C1_progress_events_witness :
    (send_text_to_window (fun _ => true) ['h', 'i']).events
      = [(2, progressValue 2 2)]
    ∧ (send_text_to_window (fun _ => true) ['h', 'i']).events.getLast? = some (2, 100) := by
  have h := C1_progress_events ['h', 'i'] (by decide)
  refine ⟨?_, h.2⟩
  rw [h.1]
  rfl
